import Mathlib

/-!
Shallow embedding of the AgriAI repository (files `yield_prediction.py`,
`final.py`, `profit_dashboard.py`) and proofs about it.

Modelling conventions:
* Python floats are modelled as rationals (`ℚ`); the arithmetic the claims
  exercise (unit conversion, sums, percentages) is exact.
* Calls to external services (the local language model, the geocoding
  service, the IP-geolocation HTTP endpoint) are modelled as oracle
  functions passed in explicitly; the functions that invoke the model also
  return a trace of which model entry points they called, so that claims
  about "which path is invoked" are statements about that trace.
* Python string primitives (`str.lower`, `str.strip`, `str.split`,
  `str.replace`, `str.startswith`, `str.isdigit`, `float(...)`) are
  modelled over `List Char`, restricted to the ASCII behaviour the
  repository exercises.
-/

namespace AgriAI

/-- Model of Python `str.lower()` on the character list of a string
(ASCII letters; `Char.toLower` only lowers basic latin letters, which
matches every string the repository manipulates). -/
def lowerList (l : List Char) : List Char := l.map Char.toLower

/-- Model of Python `str.strip()` on the character list of a string:
drop whitespace from the front, then from the back. -/
def stripList (l : List Char) : List Char :=
  List.rdropWhile Char.isWhitespace (List.dropWhile Char.isWhitespace l)

/-- Python `s.strip()` at the `String` level. -/
def pyStrip (s : String) : String := ⟨stripList s.data⟩

/-- Python `s.lower().strip()`, the crop-name normalisation performed at
the top of `YieldAdvisorLLM.get_yield_prediction` (yield_prediction.py:156). -/
def pyNormalize (s : String) : String := ⟨stripList (lowerList s.data)⟩

/-- Model of Python `str.split(sep)` for a one-character separator. -/
def splitOnChar (sep : Char) : List Char → List (List Char)
  | [] => [[]]
  | c :: rest =>
    if c = sep then [] :: splitOnChar sep rest
    else
      match splitOnChar sep rest with
      | [] => [[c]]
      | h :: t => (c :: h) :: t

/-- Helper for `replaceList`; the fuel argument is initialised with the
length of the list, which is enough because every step consumes at least
one character of the input. -/
def replaceListAux (pat rep : List Char) : Nat → List Char → List Char
  | _, [] => []
  | 0, l => l
  | fuel + 1, c :: rest =>
    if pat.isPrefixOf (c :: rest) then
      rep ++ replaceListAux pat rep fuel (List.drop (pat.length - 1) rest)
    else
      c :: replaceListAux pat rep fuel rest

/-- Model of Python `str.replace(pat, rep)`: replace every (non-overlapping,
leftmost-first) occurrence of `pat`. The repository only calls `replace`
with the non-empty patterns `"Yield:"` and `"Price:"`; for an empty
pattern this model returns the list unchanged. -/
def replaceList (pat rep l : List Char) : List Char :=
  if pat.isEmpty then l else replaceListAux pat rep l.length l

/-- Digits-to-number accumulator used by the model of `float(...)`. -/
def digitsToNat (l : List Char) : Nat :=
  l.foldl (fun a c => 10 * a + (c.toNat - 48)) 0

/-- Model of Python `float(s)` restricted to plain decimal literals: an
optional sign, digits, and an optional fractional part (the only shapes
the parsed model responses can produce a number from). Any other input
raises `ValueError` in Python, modelled as `none`. -/
def parseFloatQ (l : List Char) : Option ℚ :=
  let signBody : ℚ × List Char :=
    match l with
    | '-' :: r => (-1, r)
    | '+' :: r => (1, r)
    | r => (1, r)
  match splitOnChar '.' signBody.2 with
  | [ip] =>
    if ip ≠ [] ∧ ip.all Char.isDigit then
      some (signBody.1 * (digitsToNat ip : ℚ))
    else none
  | [ip, fp] =>
    if (ip ≠ [] ∨ fp ≠ []) ∧ ip.all Char.isDigit ∧ fp.all Char.isDigit then
      some (signBody.1 * ((digitsToNat ip : ℚ) + (digitsToNat fp : ℚ) / (10 : ℚ) ^ fp.length))
    else none
  | _ => none

/-- The line-scanning loop of `YieldAdvisorLLM.parse_response`
(yield_prediction.py:50-66). `none` models a `ValueError` escaping from
`float(...)`, which the surrounding `try` turns into `(None, None)`. -/
def parseLinesGo : List (List Char) → Option ℚ → Option ℚ → Option (Option ℚ × Option ℚ)
  | [], yv, pv => some (yv, pv)
  | line :: rest, yv, pv =>
    if ("Yield:".data).isPrefixOf line then
      match parseFloatQ (stripList (replaceList "Yield:".data [] line)) with
      | some v => parseLinesGo rest (some v) pv
      | none => none
    else if ("Price:".data).isPrefixOf line then
      match parseFloatQ (stripList (replaceList "Price:".data [] line)) with
      | some v => parseLinesGo rest yv (some v)
      | none => none
    else parseLinesGo rest yv pv

/-- Model of `YieldAdvisorLLM.parse_response` (yield_prediction.py:50-66): strip the
response, split it into lines, scan for `Yield:`/`Price:` prefixed lines;
an exception anywhere yields `(None, None)`. -/
def parse_response (response : String) : Option ℚ × Option ℚ :=
  match parseLinesGo (splitOnChar '\n' (stripList response.data)) none none with
  | some r => r
  | none => (none, none)

/-- The per-hectare static yield table of `YieldAdvisorLLM.__init__`
(yield_prediction.py:11-29), before conversion. -/
def static_yields_hectare : List (String × ℚ) :=
  [("rice", 2873), ("wheat", 3615), ("jowar", 1175), ("bajra", 1449),
   ("maize", 3321), ("tur", 831), ("gram", 1224), ("groundnut", 2179),
   ("rapeseed and mustard", 1443), ("sugarcane", 79000), ("cotton", 436),
   ("jute", 2795), ("mesta", 2056), ("potato", 24000), ("tea", 2042),
   ("coffee", 780), ("rubber", 973)]

/-- The static yield table after the per-acre conversion performed in
`YieldAdvisorLLM.__init__` (yield_prediction.py:32): every per-hectare
value is divided by 2.47105. -/
def static_yields : List (String × ℚ) :=
  static_yields_hectare.map (fun p => (p.1, p.2 / 2.47105))

/-- A record of which model entry point was invoked: `price c` is a call
to `get_price_from_llm`, `recs c` a call to `get_recommendations`. -/
inductive LLMCall where
  | price (crop : String)
  | recs (crop : String)
deriving DecidableEq, Repr

/-- Oracle for the language model: `price c` is the numeric value
`get_price_from_llm` extracts from the model output for crop `c` (`none`
when extraction or the call fails), and `recsText c` is the raw text the
model returns inside `get_recommendations` for crop `c`. -/
structure LLMEnv where
  price : String → Option ℚ
  recsText : String → String

/-- Model of `YieldAdvisorLLM.get_price_from_llm` (yield_prediction.py:68-102):
asks the model for the price only. The model invocation, the regex
extraction of `Price: NNN`, and the exception handler are abstracted into
the answer of the oracle in `Option ℚ`; the trace records the invocation. -/
def get_price_from_llm (env : LLMEnv) (crop : String) : Option ℚ × List LLMCall :=
  (env.price crop, [LLMCall.price crop])

/-- Model of `YieldAdvisorLLM.get_recommendations` (yield_prediction.py:104-149):
one combined model call whose raw text is parsed by `parse_response`;
the trace records the invocation. -/
def get_recommendations (env : LLMEnv) (crop : String) :
    (Option ℚ × Option ℚ) × List LLMCall :=
  (parse_response (env.recsText crop), [LLMCall.recs crop])

/-- The dictionary returned by `YieldAdvisorLLM.get_yield_prediction`
(yield_prediction.py:151-200), with one optional field per possible key. -/
structure CropPrediction where
  crop : String
  acres : ℚ
  yield_per_acre : Option ℚ
  expected_yield : Option ℚ
  price_per_kg : Option ℚ
  total_income : Option ℚ
  unit : Option String
  error : Option String
deriving DecidableEq, Repr

/-- Model of `YieldAdvisorLLM.get_yield_prediction` (yield_prediction.py:151-200).
Returns `none` for a falsy (empty) crop name; otherwise normalises the
crop name, serves known crops from `static_yields` plus a price-only model
call, and unknown crops from one combined model call. The second component
is the trace of model entry points invoked. -/
def get_yield_prediction (env : LLMEnv) (crop : String) (acres : ℚ) :
    Option CropPrediction × List LLMCall :=
  if crop = "" then (none, [])
  else
    match static_yields.lookup (pyNormalize crop) with
    | some yield_per_acre =>
      match get_price_from_llm env (pyNormalize crop) with
      | (some price_per_kg, calls) =>
        (some { crop := pyNormalize crop, acres := acres,
                yield_per_acre := some yield_per_acre,
                expected_yield := some (acres * yield_per_acre),
                price_per_kg := some price_per_kg,
                total_income := some (acres * yield_per_acre * price_per_kg),
                unit := some "kg", error := none }, calls)
      | (none, calls) =>
        (some { crop := pyNormalize crop, acres := acres, yield_per_acre := none,
                expected_yield := none, price_per_kg := none, total_income := none,
                unit := none, error := some "Could not determine price" }, calls)
    | none =>
      match get_recommendations env (pyNormalize crop) with
      | ((some y, some p), calls) =>
        (some { crop := pyNormalize crop, acres := acres,
                yield_per_acre := some y,
                expected_yield := some (acres * y),
                price_per_kg := some p,
                total_income := some (acres * y * p),
                unit := some "kg", error := none }, calls)
      | ((_, _), calls) =>
        (some { crop := pyNormalize crop, acres := acres, yield_per_acre := none,
                expected_yield := none, price_per_kg := none, total_income := none,
                unit := none, error := some "Could not determine yield or price" }, calls)

/-- Model of Python `str.isdigit()` for ASCII strings: non-empty and all
characters are decimal digits. -/
def pyIsDigit (s : String) : Bool :=
  !s.data.isEmpty && s.data.all Char.isDigit

/-- What the geocoding service returns on a hit: `location.latitude`,
`location.longitude`, `location.address`. -/
structure GeoLocated where
  latitude : ℚ
  longitude : ℚ
  address : String

/-- Model of `geocode_location` (final.py:47-61). The Nominatim service is the
oracle `svc` (`none` models both a lookup miss and an exception, which the
source treats identically by returning `(None, None, None)`). The second
component is the query string actually sent to the service. -/
def geocode_location (svc : String → Option GeoLocated) (location_input : String) :
    (Option ℚ × Option ℚ × Option String) × String :=
  let query :=
    if pyIsDigit location_input && location_input.length == 6
    then location_input ++ ", India" else location_input
  match svc query with
  | some loc => ((some loc.latitude, some loc.longitude, some loc.address), query)
  | none => ((none, none, none), query)

/-- The JSON body of the ip-api.com response, with `data.get(...)`
modelled by optional fields. -/
structure IPData where
  lat : Option ℚ
  lon : Option ℚ
  city : Option String
  regionName : Option String
  country : Option String

/-- Outcome of the HTTP request inside `get_location_from_ip`: either a
response with a status code and JSON body, or an exception (network
error / timeout). -/
inductive IPFetch where
  | response (status_code : Nat) (data : IPData)
  | failure (msg : String)

/-- Model of `get_location_from_ip` (final.py:31-45): on a 200 response, return
the lat and lon values fetched by `data.get` and the f-string
`f"{city}, {regionName}, {country}"` built with empty-string defaults; on
any other status or an exception, return `(None, None, None)`. -/
def get_location_from_ip : IPFetch → Option ℚ × Option ℚ × Option String
  | IPFetch.response status_code data =>
    if status_code = 200 then
      (data.lat, data.lon,
       some ((data.city.getD "") ++ ", " ++ (data.regionName.getD "") ++ ", "
             ++ (data.country.getD "")))
    else (none, none, none)
  | IPFetch.failure _ => (none, none, none)

/-- One expense entry as stored in `st.session_state.expenses`
(profit_dashboard.py:90-95). -/
structure ExpenseRecord where
  category : String
  description : String
  amount : ℚ
  date : String
deriving DecidableEq, Repr

/-- One row of the expense form: the selected category (the empty string when none is
selected), the description, and the amount. -/
structure ExpenseRow where
  name : String
  description : String
  amount : ℚ
deriving DecidableEq, Repr

/-- The loop of `render_profit_dashboard_tab` that builds `temp_expenses`
(profit_dashboard.py:65-95): a row contributes a record exactly when a
category is selected and the amount is strictly positive. -/
def collect_expenses (rows : List ExpenseRow) (now : String) : List ExpenseRecord :=
  rows.filterMap (fun r =>
    if r.name ≠ "" ∧ 0 < r.amount then
      some { category := r.name, description := r.description,
             amount := r.amount, date := now }
    else none)

/-- The submit handler (profit_dashboard.py:97-100): when the collected
batch is non-empty it is appended to the expense list of the session. -/
def add_expenses (expenses : List ExpenseRecord) (rows : List ExpenseRow)
    (now : String) : List ExpenseRecord :=
  if (collect_expenses rows now).isEmpty then expenses
  else expenses ++ collect_expenses rows now

/-- Model of `total_expenses = df_expenses['amount'].sum()` (profit_dashboard.py:107). -/
def total_expenses (expenses : List ExpenseRecord) : ℚ :=
  (expenses.map ExpenseRecord.amount).sum

/-- Model of `profit = total_yield - total_expenses` (profit_dashboard.py:108). -/
def profit (total_yield : ℚ) (expenses : List ExpenseRecord) : ℚ :=
  total_yield - total_expenses expenses

/-- Model of `profit_margin = (profit / total_yield * 100) if total_yield > 0 else 0`
(profit_dashboard.py:109). -/
def profit_margin (total_yield : ℚ) (expenses : List ExpenseRecord) : ℚ :=
  if 0 < total_yield then profit total_yield expenses / total_yield * 100 else 0

/-- A concrete model oracle used by witnesses: the price-only path always
extracts 20, and the combined path always returns a response text that
contains a `Yield:` line but no `Price:` line. -/
def testEnv : LLMEnv :=
  { price := fun _ => some 20, recsText := fun _ => "Yield: 100" }

/-- The expense list of the spec scenario: amounts 100, 200 and 50. -/
def sampleExpenses : List ExpenseRecord :=
  [{ category := "Seeds", description := "", amount := 100, date := "2024-01-01" },
   { category := "Labor", description := "", amount := 200, date := "2024-01-01" },
   { category := "Others", description := "", amount := 50, date := "2024-01-01" }]

/-- Round-trip of `Char.ofNat` through `toNat` on valid code points below
the surrogate range. -/
theorem char_toNat_ofNat (m : Nat) (h : m < 0xd800) : (Char.ofNat m).toNat = m := by
  rw [Char.ofNat, dif_pos (Or.inl h)]
  simp [Char.ofNatAux, Char.toNat, UInt32.toNat]

/-- Lowercasing a character is idempotent. -/
theorem toLower_toLower (c : Char) : Char.toLower (Char.toLower c) = Char.toLower c := by
  unfold Char.toLower
  by_cases h : c.toNat ≥ 65 ∧ c.toNat ≤ 90
  · rw [if_pos h]
    have h2 : (Char.ofNat (c.toNat + 32)).toNat = c.toNat + 32 :=
      char_toNat_ofNat _ (by omega)
    rw [if_neg (by omega)]
  · rw [if_neg h, if_neg h]

/-- Every character of a stripped list is a character of the original list. -/
theorem stripList_subset (l : List Char) : ∀ c ∈ stripList l, c ∈ l := by
  intro c hc
  have hpre := List.rdropWhile_prefix Char.isWhitespace (List.dropWhile Char.isWhitespace l)
  have hsuf : List.dropWhile Char.isWhitespace l <:+ l :=
    List.dropWhile_suffix Char.isWhitespace
  exact hsuf.subset (hpre.subset hc)

/-- A stripped list has no leading whitespace left to drop. -/
theorem dropWhile_stripList (l : List Char) :
    List.dropWhile Char.isWhitespace (stripList l) = stripList l := by
  rw [List.dropWhile_eq_self_iff]
  intro hl
  have hpre := List.rdropWhile_prefix Char.isWhitespace (List.dropWhile Char.isWhitespace l)
  have hlen : 0 < (List.dropWhile Char.isWhitespace l).length :=
    lt_of_lt_of_le hl hpre.length_le
  have hnot := List.dropWhile_get_zero_not Char.isWhitespace l hlen
  have hg : (stripList l).get ⟨0, hl⟩ = (List.dropWhile Char.isWhitespace l).get ⟨0, hlen⟩ := by
    simp only [List.get_eq_getElem]
    exact List.IsPrefix.getElem hpre hl
  rw [hg]
  exact hnot

/-- Stripping is idempotent. -/
theorem stripList_idem (l : List Char) : stripList (stripList l) = stripList l := by
  show List.rdropWhile _ (List.dropWhile _ (stripList l)) = stripList l
  rw [dropWhile_stripList]
  show List.rdropWhile _ (List.rdropWhile _ _) = _
  rw [List.rdropWhile_idempotent]
  rfl

/-- A stripped already-lowercased list is unchanged by lowercasing again. -/
theorem lowerList_fix (l : List Char) :
    lowerList (stripList (lowerList l)) = stripList (lowerList l) := by
  have h : ∀ c ∈ stripList (lowerList l), Char.toLower c = c := by
    intro c hc
    have hmem := stripList_subset _ c hc
    simp only [lowerList, List.mem_map] at hmem
    obtain ⟨a, _, rfl⟩ := hmem
    exact toLower_toLower a
  calc lowerList (stripList (lowerList l))
      = List.map id (stripList (lowerList l)) := List.map_congr_left h
    _ = _ := List.map_id _

/-- The crop-name normalisation `lower().strip()` is idempotent. -/
theorem pyNormalize_idem (s : String) : pyNormalize (pyNormalize s) = pyNormalize s := by
  show (⟨stripList (lowerList (stripList (lowerList s.data)))⟩ : String) = _
  rw [lowerList_fix, stripList_idem]
  rfl

/-- Claim C3: `geocode_location` sends the query `"<code>, India"` to the
geocoding service exactly when the input consists of six numeric
characters, and the raw input string otherwise. -/
theorem geocode_six_digit_country_qualifier (svc : String → Option GeoLocated)
    (loc : String) :
    (geocode_location svc loc).2 =
      if loc.data.all Char.isDigit ∧ loc.length = 6 then loc ++ ", India" else loc := by
  have hq : (geocode_location svc loc).2 =
      if pyIsDigit loc && loc.length == 6 then loc ++ ", India" else loc := by
    simp only [geocode_location]
    cases svc (if pyIsDigit loc && loc.length == 6 then loc ++ ", India" else loc) <;> rfl
  rw [hq]
  by_cases h : loc.data.all Char.isDigit ∧ loc.length = 6
  · rw [if_pos h, if_pos]
    have hne : loc.data.isEmpty = false := by
      have h6 := h.2
      rw [String.length] at h6
      cases hd : loc.data with
      | nil => rw [hd] at h6; simp at h6
      | cons a t => rfl
    simp only [pyIsDigit, hne, Bool.not_false, Bool.true_and, Bool.and_eq_true,
      beq_iff_eq]
    exact ⟨h.1, h.2⟩
  · rw [if_neg h, if_neg]
    intro hb
    apply h
    simp only [pyIsDigit, Bool.and_eq_true, Bool.not_eq_eq_eq_not, beq_iff_eq] at hb
    exact ⟨hb.1.2, hb.2⟩

/-- Claim C5, counterexample: a 200 response whose JSON is missing every
field (in particular the required `lat`/`lon`) does not produce the
uniform all-absent result: the address component is the string `", , "`
built from the empty-string defaults, so the result is partially
populated. -/
theorem ip_missing_fields_cex :
    get_location_from_ip (IPFetch.response 200 ⟨none, none, none, none, none⟩)
        = (none, none, some ", , ") ∧
    get_location_from_ip (IPFetch.response 200 ⟨none, none, none, none, none⟩)
        ≠ (none, none, none) := by
  constructor
  · rfl
  · intro hcontra
    simp [get_location_from_ip] at hcontra

/-- Claim C5, amended: on a network error, or on a response whose status
code is not 200, `get_location_from_ip` returns the uniform unresolved
result with all three fields absent. (On a 200 response the fields are
passed through individually: missing `lat`/`lon` stay absent but the
formatted address string is always present.) -/
theorem ip_error_or_non200_unresolved (f : IPFetch)
    (h : ∀ status_code data, f = IPFetch.response status_code data → status_code ≠ 200) :
    get_location_from_ip f = (none, none, none) := by
  cases f with
  | response code data =>
    have hc := h code data rfl
    simp only [get_location_from_ip]
    rw [if_neg hc]
  | failure msg => rfl

/-- Witness for the amended claim C5 at a concrete non-200 response. -/
theorem ip_error_or_non200_unresolved_witness :
    get_location_from_ip (IPFetch.response 404 ⟨none, none, none, none, none⟩)
      = (none, none, none) :=
  ip_error_or_non200_unresolved _ (by
    intro code data hcd
    injection hcd with hcode hdata
    omega)

/-- Claim C6: the static yield table entry for `"wheat"` is the
per-hectare value 3615 divided by the conversion constant 2.47105, and
that value lies within rounding tolerance (here 0.1) of 1463.0 kg/acre. -/
theorem wheat_static_yield_conversion :
    static_yields.lookup "wheat" = some (3615 / 2.47105) ∧
    |(3615 : ℚ) / 2.47105 - 1463| < 1 / 10 := by
  constructor
  · rfl
  · rw [abs_lt]
    constructor <;> norm_num

/-- Claim C7: for the expense amounts 100, 200, 50 and total revenue 1000
the dashboard computes total expenses 350, profit 650 and a profit margin
of 65%. -/
theorem profit_dashboard_scenario :
    total_expenses sampleExpenses = 350 ∧
    profit 1000 sampleExpenses = 650 ∧
    profit_margin 1000 sampleExpenses = 65 := by
  refine ⟨?_, ?_, ?_⟩ <;>
    norm_num [total_expenses, profit, profit_margin, sampleExpenses]

/-- Claim C8: every record the expense form adds to the session list has a
strictly positive amount (so, given the invariant held before, all stored
amounts stay positive, in particular non-negative), and a row with a zero
amount or with no category selected contributes nothing. -/
theorem expense_amounts_positive (expenses : List ExpenseRecord)
    (rows : List ExpenseRow) (now : String)
    (h : ∀ e ∈ expenses, 0 < e.amount) :
    (∀ e ∈ add_expenses expenses rows now, 0 < e.amount) ∧
    (∀ r : ExpenseRow, r.amount = 0 ∨ r.name = "" → collect_expenses [r] now = []) := by
  constructor
  · intro e he
    unfold add_expenses at he
    split at he
    · exact h e he
    · rw [List.mem_append] at he
      rcases he with he | he
      · exact h e he
      · unfold collect_expenses at he
        rw [List.mem_filterMap] at he
        obtain ⟨r, _, hr⟩ := he
        by_cases hc : r.name ≠ "" ∧ 0 < r.amount
        · rw [if_pos hc] at hr
          cases hr
          exact hc.2
        · rw [if_neg hc] at hr
          cases hr
  · intro r hr
    have hc : ¬ (r.name ≠ "" ∧ 0 < r.amount) := by
      rcases hr with h0 | hn
      · intro hc
        rw [h0] at hc
        exact lt_irrefl 0 hc.2
      · intro hc
        exact hc.1 hn
    unfold collect_expenses
    simp only [List.filterMap_cons, if_neg hc, List.filterMap_nil]

/-- Witness for claim C8: starting from an empty session list and a form
whose only row has amount 0, the invariant holds. -/
theorem expense_amounts_positive_witness :
    (∀ e ∈ add_expenses []
        [{ name := "Seeds", description := "tomato seeds", amount := 0 }] "2024-01-01",
      0 < e.amount) ∧
    (∀ r : ExpenseRow, r.amount = 0 ∨ r.name = "" →
      collect_expenses [r] "2024-01-01" = []) :=
  expense_amounts_positive []
    [{ name := "Seeds", description := "tomato seeds", amount := 0 }] "2024-01-01"
    (by simp)

/-- Claim C10: whenever total revenue is not strictly positive the profit
margin is defined to be 0 by the guard, not computed by division. -/
theorem profit_margin_division_safe (total_yield : ℚ) (expenses : List ExpenseRecord)
    (h : ¬ 0 < total_yield) : profit_margin total_yield expenses = 0 := by
  unfold profit_margin
  rw [if_neg h]

/-- Witness for claim C10 at revenue 0. -/
theorem profit_margin_division_safe_witness :
    ¬ (0 : ℚ) < 0 ∧ profit_margin 0 sampleExpenses = 0 :=
  ⟨lt_irrefl 0, profit_margin_division_safe 0 sampleExpenses (lt_irrefl 0)⟩

/-- Claim C1: for a crop whose normalised name is in the static yield
table, `get_yield_prediction` invokes exactly the price-only model path
(`get_price_from_llm`) and never the combined path
(`get_recommendations`), and every successful result carries the static
per-acre converted yield value of the table. -/
theorem known_crop_static_yield_price_only (env : LLMEnv) (crop : String) (acres : ℚ)
    (h1 : crop ≠ "") (h2 : (static_yields.lookup (pyNormalize crop)).isSome) :
    (get_yield_prediction env crop acres).2 = [LLMCall.price (pyNormalize crop)] ∧
    (∀ s, LLMCall.recs s ∉ (get_yield_prediction env crop acres).2) ∧
    (∀ p, (get_yield_prediction env crop acres).1 = some p → p.error = none →
      p.yield_per_acre = static_yields.lookup (pyNormalize crop)) := by
  obtain ⟨y, hy⟩ := Option.isSome_iff_exists.mp h2
  cases hp : env.price (pyNormalize crop) with
  | none =>
    have hres : get_yield_prediction env crop acres =
        (some { crop := pyNormalize crop, acres := acres, yield_per_acre := none,
                expected_yield := none, price_per_kg := none, total_income := none,
                unit := none, error := some "Could not determine price" },
         [LLMCall.price (pyNormalize crop)]) := by
      unfold get_yield_prediction get_price_from_llm
      rw [if_neg h1, hy, hp]
    rw [hres]
    refine ⟨rfl, ?_, ?_⟩
    · intro s hs
      simp at hs
    · intro p hpp herr
      simp at hpp
      rw [← hpp] at herr
      simp at herr
  | some v =>
    have hres : get_yield_prediction env crop acres =
        (some { crop := pyNormalize crop, acres := acres,
                yield_per_acre := some y,
                expected_yield := some (acres * y),
                price_per_kg := some v,
                total_income := some (acres * y * v),
                unit := some "kg", error := none },
         [LLMCall.price (pyNormalize crop)]) := by
      unfold get_yield_prediction get_price_from_llm
      rw [if_neg h1, hy, hp]
    rw [hres]
    refine ⟨rfl, ?_, ?_⟩
    · intro s hs
      simp at hs
    · intro p hpp herr
      simp at hpp
      rw [← hpp, hy]

/-- Witness for claim C1 at the table crop `"Wheat "` (normalising to
`"wheat"`) under the concrete oracle `testEnv`. -/
theorem known_crop_static_yield_price_only_witness :
    ("Wheat " ≠ "") ∧ (static_yields.lookup (pyNormalize "Wheat ")).isSome ∧
    ((get_yield_prediction testEnv "Wheat " 2).2 = [LLMCall.price (pyNormalize "Wheat ")] ∧
     (∀ s, LLMCall.recs s ∉ (get_yield_prediction testEnv "Wheat " 2).2) ∧
     (∀ p, (get_yield_prediction testEnv "Wheat " 2).1 = some p → p.error = none →
       p.yield_per_acre = static_yields.lookup (pyNormalize "Wheat "))) :=
  ⟨by decide, by decide,
   known_crop_static_yield_price_only testEnv "Wheat " 2 (by decide) (by decide)⟩

/-- Claim C2, counterexample: a model response containing a `Yield:` line
but no `Price:` line parses to a partial pair carrying one numeric value
and one `None`, not to the all-`None` undetermined pair the claim
requires. -/
theorem parse_missing_price_cex :
    (parse_response "Yield: 100").1.isSome ∧ (parse_response "Yield: 100").2 = none := by
  decide

/-- Claim C2, amended: for a crop whose normalised name is not in the
static table, both values are requested through the single combined call
`get_recommendations`; when the parsed response is missing either value
the final prediction is the undetermined error record carrying no numeric
fields (the parsed pair itself may be partial, but it never reaches a
prediction). -/
theorem unknown_crop_combined_call_undetermined (env : LLMEnv) (crop : String)
    (acres : ℚ) (h1 : crop ≠ "")
    (h2 : static_yields.lookup (pyNormalize crop) = none) :
    (get_yield_prediction env crop acres).2 = [LLMCall.recs (pyNormalize crop)] ∧
    (((parse_response (env.recsText (pyNormalize crop))).1 = none ∨
      (parse_response (env.recsText (pyNormalize crop))).2 = none) →
      (get_yield_prediction env crop acres).1 =
        some { crop := pyNormalize crop, acres := acres, yield_per_acre := none,
               expected_yield := none, price_per_kg := none, total_income := none,
               unit := none, error := some "Could not determine yield or price" }) := by
  rcases hpp : parse_response (env.recsText (pyNormalize crop)) with ⟨yv, pv⟩
  cases yv with
  | none =>
    have hres : get_yield_prediction env crop acres =
        (some { crop := pyNormalize crop, acres := acres, yield_per_acre := none,
                expected_yield := none, price_per_kg := none, total_income := none,
                unit := none, error := some "Could not determine yield or price" },
         [LLMCall.recs (pyNormalize crop)]) := by
      unfold get_yield_prediction get_recommendations
      rw [if_neg h1, h2, hpp]
    rw [hres]
    exact ⟨rfl, fun _ => rfl⟩
  | some yy =>
    cases pv with
    | none =>
      have hres : get_yield_prediction env crop acres =
          (some { crop := pyNormalize crop, acres := acres, yield_per_acre := none,
                  expected_yield := none, price_per_kg := none, total_income := none,
                  unit := none, error := some "Could not determine yield or price" },
           [LLMCall.recs (pyNormalize crop)]) := by
        unfold get_yield_prediction get_recommendations
        rw [if_neg h1, h2, hpp]
      rw [hres]
      exact ⟨rfl, fun _ => rfl⟩
    | some pp =>
      have hres : get_yield_prediction env crop acres =
          (some { crop := pyNormalize crop, acres := acres,
                  yield_per_acre := some yy,
                  expected_yield := some (acres * yy),
                  price_per_kg := some pp,
                  total_income := some (acres * yy * pp),
                  unit := some "kg", error := none },
           [LLMCall.recs (pyNormalize crop)]) := by
        unfold get_yield_prediction get_recommendations
        rw [if_neg h1, h2, hpp]
      rw [hres]
      refine ⟨rfl, ?_⟩
      intro hmis
      simp at hmis

/-- Witness for the amended claim C2: the unknown crop `"dragonfruit"`
under `testEnv`, whose combined-call response has a `Yield:` line but no
`Price:` line, produces the undetermined error record. -/
theorem unknown_crop_combined_call_undetermined_witness :
    static_yields.lookup (pyNormalize "dragonfruit") = none ∧
    (get_yield_prediction testEnv "dragonfruit" 1).1 =
      some { crop := pyNormalize "dragonfruit", acres := 1, yield_per_acre := none,
             expected_yield := none, price_per_kg := none, total_income := none,
             unit := none, error := some "Could not determine yield or price" } :=
  ⟨by decide,
   (unknown_crop_combined_call_undetermined testEnv "dragonfruit" 1 (by decide)
     (by decide)).2 (Or.inr (by decide))⟩

/-- Claim C4: for every non-empty crop name the returned dictionary either
carries all of yield, price and income (and no error), or carries an error
and none of the numeric fields — never a mixture. -/
theorem prediction_all_or_error (env : LLMEnv) (crop : String) (acres : ℚ)
    (h1 : crop ≠ "") :
    ∀ p, (get_yield_prediction env crop acres).1 = some p →
      (p.yield_per_acre.isSome ∧ p.price_per_kg.isSome ∧ p.total_income.isSome ∧
        p.error = none) ∨
      (p.error.isSome ∧ p.yield_per_acre = none ∧ p.price_per_kg = none ∧
        p.total_income = none) := by
  intro p hp
  unfold get_yield_prediction get_price_from_llm get_recommendations at hp
  rw [if_neg h1] at hp
  cases hl : static_yields.lookup (pyNormalize crop) with
  | some y =>
    rw [hl] at hp
    cases hpr : env.price (pyNormalize crop) with
    | none =>
      rw [hpr] at hp
      simp at hp
      rw [← hp]
      right
      simp
    | some v =>
      rw [hpr] at hp
      simp at hp
      rw [← hp]
      left
      simp
  | none =>
    rw [hl] at hp
    rcases hpp : parse_response (env.recsText (pyNormalize crop)) with ⟨yv, pv⟩
    rw [hpp] at hp
    cases yv with
    | some yy =>
      cases pv with
      | some pp =>
        simp at hp
        rw [← hp]
        left
        simp
      | none =>
        simp at hp
        rw [← hp]
        right
        simp
    | none =>
      cases pv with
      | some pp =>
        simp at hp
        rw [← hp]
        right
        simp
      | none =>
        simp at hp
        rw [← hp]
        right
        simp

/-- Witness for claim C4 at the crop `"rice"` under `testEnv`. -/
theorem prediction_all_or_error_witness :
    ("rice" ≠ "") ∧
    ∀ p, (get_yield_prediction testEnv "rice" 1).1 = some p →
      (p.yield_per_acre.isSome ∧ p.price_per_kg.isSome ∧ p.total_income.isSome ∧
        p.error = none) ∨
      (p.error.isSome ∧ p.yield_per_acre = none ∧ p.price_per_kg = none ∧
        p.total_income = none) :=
  ⟨by decide, prediction_all_or_error testEnv "rice" 1 (by decide)⟩

/-- Claim C9, counterexample: for the whitespace-only crop name `" "` the
call follows the model branch (it invokes `get_recommendations` on the
normalised name `""` and returns a prediction record), while the call on
its normalised form `""` hits the emptiness guard, returns `None` and
invokes nothing — so the two calls follow different branches and produce
different results. -/
theorem normalization_invariance_cex :
    (get_yield_prediction testEnv " " 1).2 = [LLMCall.recs ""] ∧
    (get_yield_prediction testEnv "" 1).2 = [] ∧
    (get_yield_prediction testEnv " " 1).1 ≠ (get_yield_prediction testEnv "" 1).1 := by
  refine ⟨rfl, rfl, ?_⟩
  decide

/-- Claim C9, amended: for every crop name whose normalised (lowercased
and stripped) form is non-empty, `get_yield_prediction` is invariant under
the normalisation: the call on the raw name and the call on the normalised
name produce identical results and call traces. (For names normalising to
the empty string the equivalence fails, because the emptiness guard tests
the raw name before normalisation.) -/
theorem normalization_invariance (env : LLMEnv) (crop : String) (acres : ℚ)
    (h : pyNormalize crop ≠ "") :
    get_yield_prediction env crop acres =
      get_yield_prediction env (pyNormalize crop) acres := by
  have hc : crop ≠ "" := by
    intro he
    apply h
    rw [he]
    rfl
  unfold get_yield_prediction
  rw [if_neg hc, if_neg h, pyNormalize_idem]

/-- Witness for the amended claim C9 at the crop name `"Wheat "`. -/
theorem normalization_invariance_witness :
    pyNormalize "Wheat " ≠ "" ∧
    get_yield_prediction testEnv "Wheat " 2 =
      get_yield_prediction testEnv (pyNormalize "Wheat ") 2 :=
  ⟨by decide, normalization_invariance testEnv "Wheat " 2 (by decide)⟩

end AgriAI
